import Mathlib

/-!
# Verification of the oggm-edu-notebooks idealized-glacier core

This file is a shallow embedding of the homegrown logic of the
`oggm-edu-notebooks` repository: the cyclic surge-forcing schedule of
`surging_experiment.ipynb`, the linear-bed geometry construction
(`np.linspace` as used in the notebooks), the trapezoidal width profile,
the equilibrium-profile reconstruction, the staged-ELA forcing loop, and
the contract of the external flow model's `run_until` stepping operation.

Machine floats of the notebooks are modelled over `ℚ` (the values involved
are exact at this scale); integer year arithmetic is modelled over `ℤ`.
-/

set_option maxRecDepth 10000

namespace OggmEdu

/-- Numpy's `np.arange(start, stop, step)` for integer arguments and positive step:
the list `start, start+step, ...` of all values below `stop`.
For `step ≤ 0` (never used by the notebooks) we return `[]`. -/
def npArange (start stop step : ℤ) : List ℤ :=
  if step ≤ 0 then []
  else (List.range ((stop - start + step - 1) / step).toNat).map
    (fun (i : ℕ) => start + (i : ℤ) * step)

/-- One iteration of the surge-schedule loop of `surging_experiment.ipynb`,
with each appended year tagged by its provenance (`true` = appended from the
dense `yrs_sliding` window, `false` = from the coarse `yrs_normal` window):

    yrs_sliding = np.arange(t_slow+1+t_slow*i+period_s*i,
                            t_slow+period_s+1+t_slow*i+period_s*i, 1)
    yrs = np.append(yrs, yrs_sliding)
    yrs_normal = np.arange(t_slow+period_s+10+t_slow*i+period_s*i,
                           2*t_slow+period_s+10+t_slow*i+period_s*i, 10)
    yrs = np.append(yrs, yrs_normal)
-/
def surgeBlock (t_slow period_s : ℤ) (i : ℕ) : List (ℤ × Bool) :=
  (npArange (t_slow + 1 + t_slow * i + period_s * i)
      (t_slow + period_s + 1 + t_slow * i + period_s * i) 1).map (fun y => (y, true))
    ++ (npArange (t_slow + period_s + 10 + t_slow * i + period_s * i)
      (2 * t_slow + period_s + 10 + t_slow * i + period_s * i) 10).map (fun y => (y, false))

/-- The full surge schedule of `surging_experiment.ipynb`, tagged with
perturbation provenance.  Mirrors

    yrs = np.arange(0, t_slow + 1, 10)
    for i in np.arange(0, no_surges, 1):
        ... (see `surgeBlock`)

The initial background run is tagged non-perturbation. -/
def surgeScheduleTagged (t_slow period_s : ℤ) (no_surges : ℕ) : List (ℤ × Bool) :=
  (List.range no_surges).foldl (fun yrs i => yrs ++ surgeBlock t_slow period_s i)
    ((npArange 0 (t_slow + 1) 10).map (fun y => (y, false)))

/-- The untagged schedule: exactly the `yrs` array built by the source. -/
def surgeYears (t_slow period_s : ℤ) (no_surges : ℕ) : List ℤ :=
  (surgeScheduleTagged t_slow period_s no_surges).map Prod.fst

/-- The schedule with the surge count taken as a (possibly negative) integer:
`np.arange(0, no_surges, 1)` runs `max no_surges 0` iterations, so a negative
count simply produces the background run alone. -/
def surgeYearsZ (t_slow period_s : ℤ) (no_surges : ℤ) : List ℤ :=
  surgeYears t_slow period_s no_surges.toNat

/-- Closed form of the dense perturbation window of cycle `i` for the source
parameters `t_slow = 100`, `period_s = 10`: the years `101+110i .. 110+110i`. -/
def slidingWindow (i : ℕ) : List ℤ :=
  (List.range 10).map (fun (j : ℕ) => 101 + 110 * (i : ℤ) + (j : ℤ))

/-- Closed form of the coarse background window of cycle `i` for the source
parameters: the years `120+110i, 130+110i, ..., 210+110i`. -/
def normalWindow (i : ℕ) : List ℤ :=
  (List.range 10).map (fun (j : ℕ) => 120 + 110 * (i : ℤ) + (j : ℤ) * 10)

/-- Lengths of the maximal contiguous runs of `true` in a list of tags,
in order of appearance. -/
def trueRuns : List Bool → List ℕ
  | [] => []
  | false :: rest => trueRuns rest
  | [true] => [1]
  | true :: false :: rest => 1 :: trueRuns rest
  | true :: true :: rest =>
    match trueRuns (true :: rest) with
    | [] => [1]
    | n :: ns => (n + 1) :: ns

/-- The state of the external flowline model, as visible through the notebook
code: a current year and the scalar diagnostics the loops record. -/
structure GlacierModel where
  yr : ℤ
  length_m : ℚ
  volume_km3 : ℚ
  deriving DecidableEq, Repr

/-- Modelled from the spec: the external OGGM library's `model.run_until(year)`
operation is absent from the sources (only its call sites are).  Per the
stated contract it advances the internal state to `year` and is a no-op when
`year` is not later than the current year; the physics of one year of
evolution is the opaque collaborator `evolve`. -/
def run_until (evolve : GlacierModel → GlacierModel) (m : GlacierModel) (y : ℤ) :
    GlacierModel :=
  if y ≤ m.yr then m
  else { evolve^[(y - m.yr).toNat] m with yr := y }

/-- The recording loop of the flowline notebook:

    for i, yr in enumerate(yrs):
        model.run_until(yr)
        length[i] = model.length_m
        vol[i] = model.volume_km3

returning the final model and the per-checkpoint records
`(model.yr, model.length_m, model.volume_km3)` in schedule order. -/
def driverRun (evolve : GlacierModel → GlacierModel) (m : GlacierModel) :
    List ℤ → GlacierModel × List (ℤ × ℚ × ℚ)
  | [] => (m, [])
  | y :: rest =>
    let m' := run_until evolve m y
    let r := driverRun evolve m' rest
    (r.1, (m'.yr, m'.length_m, m'.volume_km3) :: r.2)

/-- Numpy's `np.linspace(start, stop, num)` for a non-negative sample count:
`num` evenly spaced values from `start` to `stop` inclusive
(`[start]` when `num = 1`, `[]` when `num = 0`). -/
def linspace (start stop : ℚ) (num : ℕ) : List ℚ :=
  if num = 0 then []
  else if num = 1 then [start]
  else (List.range num).map
    (fun (i : ℕ) => start + (i : ℚ) * (stop - start) / ((num : ℚ) - 1))

/-- Numpy's `np.linspace` with the sample count taken as an integer: numpy raises
`ValueError` (here `none`) exactly when the count is negative; any
non-negative count — including `0` — returns an array.  This is the
notebooks' `bed_h = np.linspace(top, bottom, nx)` bed construction. -/
def np_linspace (start stop : ℚ) (num : ℤ) : Option (List ℚ) :=
  if num < 0 then none else some (linspace start stop num.toNat)

/-- Modelled from the spec: `edu.define_widths_with_trapezoidal_shape_at_top`
lives in the external `oggm_edu` helper package and is absent from the
sources.  Per the spec it "produces a width sequence equal to `top_width` for
the top `accumulation_fraction * grid_count` indices (rounded down) and equal
to `ela_width` for all remaining indices, with no interpolation in between
(a step function)". -/
def build_trapezoidal_width (topw elaw : ℚ) (nx : ℕ) (frac : ℚ) : List ℚ :=
  (List.range nx).map (fun (i : ℕ) => if (i : ℤ) < ⌊frac * nx⌋ then topw else elaw)

/-- Modelled from the spec: the equilibrium-profile reconstruction
(`edu.linear_accumulation` / `edu.linear_ablation` / `edu.correct_to_bed` are
external `oggm_edu` helpers absent from the sources).  Per the spec, for each
grid index `i`: `balance = gradient * (initial_surface[i] - ela)`,
`candidate = initial_surface[i] + balance`, clipped to the bedrock:
`profile(i) = max(candidate(i), bedrock[i])`. -/
def reconstruct (initial_surface bedrock : List ℚ) (ela gradient : ℚ) : List ℚ :=
  List.zipWith (fun s b => max (s + gradient * (s - ela)) b) initial_surface bedrock

/-- Pythonic list indexing: a negative index counts from the end; an index
out of range on either side is an `IndexError` (`none`). -/
def pyGet (l : List ℤ) (i : ℤ) : Option ℤ :=
  if 0 ≤ i then l.get? i.toNat
  else if 0 ≤ i + l.length then l.get? (i + l.length).toNat else none

/-- The `yrs` array of the surging experiment with its source parameters
`t_slow = 100`, `period_s = 10`, `no_surges = 10`. -/
def yrsSurge : List ℤ := surgeYears 100 10 10

/-- First conjunct of the surge-window plot detection at loop index `i`:
`(yr - yrs[i-1]) == 1` where `yr = yrs[i]`.  At `i = 0` Python evaluates
`yrs[-1]`, the last element. -/
def surgeCond1 (i : ℕ) : Bool :=
  match yrsSurge.get? i, pyGet yrsSurge ((i : ℤ) - 1) with
  | some yr, some prev => yr - prev = 1
  | _, _ => false

/-- Second conjunct of the detection at loop index `i`:
`(yrs[i-1+period_s] - yrs[i+period_s-2]) == 1` with `period_s = 10`,
i.e. indices `i+9` and `i+8`; `false` stands in for the out-of-range case
(which `surgeDetectSafe` shows is never reached). -/
def surgeCond2 (i : ℕ) : Bool :=
  match pyGet yrsSurge ((i : ℤ) + 9), pyGet yrsSurge ((i : ℤ) + 8) with
  | some a, some b => a - b = 1
  | _, _ => false

/-- Safety of the plotting loop's short-circuit `and`: whenever the first
conjunct holds at index `i`, both indices touched by the second conjunct are
within the array. -/
def surgeDetectSafe : Bool :=
  (List.range yrsSurge.length).all
    (fun i => !surgeCond1 i || (decide (i + 9 < yrsSurge.length)
      && decide (i + 8 < yrsSurge.length)))

/-- Loop indices at which the plot detection condition fires. -/
def surgeDetectIndices : List ℕ :=
  (List.range yrsSurge.length).filter (fun i => surgeCond1 i && surgeCond2 i)

/-- The checkpoint array of the staged-ELA notebook:
`yrs = np.arange(0, 901, 5)` (181 checkpoints `0, 5, ..., 900`). -/
def yrsEla : List ℤ := npArange 0 901 5

/-- The staged-ELA forcing loop of the response-time notebook:

    current_ela = 3000.
    for i, yr in enumerate(yrs):
        model.run_until(yr)
        if yr >= 100:
            current_ela = 2800
            model.mb_model = LinearMassBalance(current_ela, grad=4)
        if yr >= 500:
            current_ela = 3200
            model.mb_model = LinearMassBalance(current_ela, grad=4)
        ela[i] = current_ela

For each checkpoint we return `(recorded, used)`: the ELA recorded in
`ela[i]`, and the ELA of the mass-balance model in effect while
`model.run_until(yr)` executed (the model is only replaced after it returns). -/
def stagedEla : List ℤ → ℤ → List (ℤ × ℤ)
  | [], _ => []
  | yr :: rest, e =>
    let e1 := if 100 ≤ yr then 2800 else e
    let e2 := if 500 ≤ yr then 3200 else e1
    (e2, e) :: stagedEla rest e2

/-- The `(recorded, used)` ELA pairs of the staged-ELA loop as run in the
source, starting from `current_ela = 3000`. -/
def elaRecords : List (ℤ × ℤ) := stagedEla yrsEla 3000

/-! ## Helper lemmas -/

lemma npArange_ten (a : ℤ) :
    npArange a (a + 10) 1 = (List.range 10).map (fun (j : ℕ) => a + (j : ℤ)) := by
  rw [npArange, if_neg (by norm_num)]
  have h1 : (a + 10 - a + 1 - 1 : ℤ) = 10 := by ring
  rw [h1]
  norm_num
  rfl

lemma npArange_hundred (a : ℤ) :
    npArange a (a + 100) 10
      = (List.range 10).map (fun (j : ℕ) => a + (j : ℤ) * 10) := by
  rw [npArange, if_neg (by norm_num)]
  have h1 : (a + 100 - a + 10 - 1 : ℤ) = 109 := by ring
  rw [h1]
  norm_num
  rfl

lemma surgeBlock_eq (i : ℕ) :
    surgeBlock 100 10 i
      = (slidingWindow i).map (fun y => (y, true))
        ++ (normalWindow i).map (fun y => (y, false)) := by
  rw [surgeBlock, slidingWindow, normalWindow]
  have e1 : (100 : ℤ) + 1 + 100 * i + 10 * i = 101 + 110 * i := by ring
  have e2 : (100 : ℤ) + 10 + 1 + 100 * i + 10 * i = (101 + 110 * i) + 10 := by ring
  have e3 : (100 : ℤ) + 10 + 10 + 100 * i + 10 * i = 120 + 110 * i := by ring
  have e4 : 2 * (100 : ℤ) + 10 + 10 + 100 * i + 10 * i = (120 + 110 * i) + 100 := by
    ring
  rw [e1, e2, e3, e4, npArange_ten, npArange_hundred, List.map_map, List.map_map]

lemma surgeScheduleTagged_succ (t_slow period_s : ℤ) (N : ℕ) :
    surgeScheduleTagged t_slow period_s (N + 1)
      = surgeScheduleTagged t_slow period_s N ++ surgeBlock t_slow period_s N := by
  rw [surgeScheduleTagged, surgeScheduleTagged, List.range_succ, List.foldl_append]
  rfl

lemma surgeYears_succ (N : ℕ) :
    surgeYears 100 10 (N + 1)
      = surgeYears 100 10 N ++ (slidingWindow N ++ normalWindow N) := by
  rw [surgeYears, surgeScheduleTagged_succ, surgeBlock_eq, List.map_append,
    List.map_append, List.map_map, List.map_map]
  rfl

lemma slidingWindow_bounds (i : ℕ) :
    ∀ y ∈ slidingWindow i, 101 + 110 * (i : ℤ) ≤ y ∧ y ≤ 110 + 110 * (i : ℤ) := by
  intro y hy
  rw [slidingWindow] at hy
  simp only [List.mem_map, List.mem_range] at hy
  obtain ⟨j, hj, rfl⟩ := hy
  omega

lemma normalWindow_bounds (i : ℕ) :
    ∀ y ∈ normalWindow i, 120 + 110 * (i : ℤ) ≤ y ∧ y ≤ 210 + 110 * (i : ℤ) := by
  intro y hy
  rw [normalWindow] at hy
  simp only [List.mem_map, List.mem_range] at hy
  obtain ⟨j, hj, rfl⟩ := hy
  omega

lemma slidingWindow_pairwise (i : ℕ) : (slidingWindow i).Pairwise (· < ·) := by
  rw [slidingWindow, List.pairwise_map]
  exact (List.pairwise_lt_range 10).imp (fun h => by omega)

lemma normalWindow_pairwise (i : ℕ) : (normalWindow i).Pairwise (· < ·) := by
  rw [normalWindow, List.pairwise_map]
  exact (List.pairwise_lt_range 10).imp (fun h => by omega)

lemma surgeYears_bound (N : ℕ) :
    ∀ y ∈ surgeYears 100 10 N, y ≤ 100 + 110 * (N : ℤ) := by
  induction N with
  | zero => decide
  | succ n ih =>
    intro y hy
    rw [surgeYears_succ, List.mem_append, List.mem_append] at hy
    rcases hy with hy | hy | hy
    · have := ih y hy
      push_cast
      linarith
    · have := (slidingWindow_bounds n y hy).2
      push_cast
      linarith
    · have := (normalWindow_bounds n y hy).2
      push_cast
      linarith

lemma surgeYears_pairwise (N : ℕ) : (surgeYears 100 10 N).Pairwise (· < ·) := by
  induction N with
  | zero => decide
  | succ n ih =>
    rw [surgeYears_succ, List.pairwise_append]
    refine ⟨ih, ?_, ?_⟩
    · rw [List.pairwise_append]
      refine ⟨slidingWindow_pairwise n, normalWindow_pairwise n, ?_⟩
      intro a ha b hb
      have h1 := (slidingWindow_bounds n a ha).2
      have h2 := (normalWindow_bounds n b hb).1
      linarith
    · intro a ha b hb
      have h1 := surgeYears_bound n a ha
      rw [List.mem_append] at hb
      rcases hb with hb | hb
      · have h2 := (slidingWindow_bounds n b hb).1
        linarith
      · have h2 := (normalWindow_bounds n b hb).1
        linarith

lemma surgeYears_head (N : ℕ) : (surgeYears 100 10 N).head? = some 0 := by
  induction N with
  | zero => decide
  | succ n ih =>
    rw [surgeYears_succ, List.head?_append, ih]
    rfl

lemma trueRuns_cons_true_ne_nil (l : List Bool) : trueRuns (true :: l) ≠ [] := by
  cases l with
  | nil => simp [trueRuns]
  | cons b rest =>
    cases b with
    | false => simp [trueRuns]
    | true =>
      cases h : trueRuns (true :: rest) with
      | nil => simp [trueRuns, h]
      | cons n ns => simp [trueRuns, h]

lemma trueRuns_append (xs ys : List Bool) (h : xs.getLast? ≠ some true) :
    trueRuns (xs ++ ys) = trueRuns xs ++ trueRuns ys := by
  induction xs with
  | nil => simp [trueRuns]
  | cons a rest ih =>
    cases rest with
    | nil =>
      cases a with
      | false => simp [trueRuns]
      | true => simp at h
    | cons b rest' =>
      rw [List.getLast?_cons_cons] at h
      cases a with
      | false =>
        have hr := ih h
        simp only [List.cons_append, trueRuns] at hr ⊢
        exact hr
      | true =>
        cases b with
        | false =>
          have hr := ih h
          simp only [List.cons_append, trueRuns] at hr ⊢
          rw [hr]
        | true =>
          have hr := ih h
          obtain ⟨n, ns, hn⟩ :=
            List.exists_cons_of_ne_nil (trueRuns_cons_true_ne_nil rest')
          simp only [List.cons_append] at hr ⊢
          simp only [trueRuns]
          rw [hr, hn]
          simp

lemma scheduleTags_succ (N : ℕ) :
    (surgeScheduleTagged 100 10 (N + 1)).map Prod.snd
      = (surgeScheduleTagged 100 10 N).map Prod.snd
        ++ (List.replicate 10 true ++ List.replicate 10 false) := by
  rw [surgeScheduleTagged_succ, List.map_append]
  congr 1
  rw [surgeBlock_eq, List.map_append, List.map_map, List.map_map]
  rfl

lemma scheduleTags_getLast (N : ℕ) :
    ((surgeScheduleTagged 100 10 N).map Prod.snd).getLast? = some false := by
  induction N with
  | zero => decide
  | succ n ih =>
    rw [scheduleTags_succ, List.getLast?_append]
    rfl

lemma driverRun_years (evolve : GlacierModel → GlacierModel) :
    ∀ (ys : List ℤ) (m : GlacierModel), ys.Chain' (· < ·) →
      (∀ h ∈ ys.head?, m.yr ≤ h) →
      (driverRun evolve m ys).2.map (fun r => r.1) = ys := by
  intro ys
  induction ys with
  | nil => intro m _ _; rfl
  | cons y rest ih =>
    intro m hch hh
    have hm : m.yr ≤ y := hh y rfl
    have h1 : (run_until evolve m y).yr = y := by
      rw [run_until]
      by_cases hy : y ≤ m.yr
      · rw [if_pos hy]; omega
      · rw [if_neg hy]
    rw [List.chain'_cons'] at hch
    simp only [driverRun, List.map_cons]
    rw [h1]
    congr 1
    apply ih _ hch.2
    intro h2 hh2
    have := hch.1 h2 hh2
    omega

lemma range_map_ite {α : Type} (a b : α) :
    ∀ (n k : ℕ), k ≤ n →
      (List.range n).map (fun (i : ℕ) => if i < k then a else b)
        = List.replicate k a ++ List.replicate (n - k) b := by
  intro n
  induction n with
  | zero =>
    intro k hk
    have hz : k = 0 := Nat.le_zero.mp hk
    subst hz
    rfl
  | succ m ih =>
    intro k hk
    rw [List.range_succ, List.map_append]
    rcases Nat.lt_or_ge m k with hlt | hge
    · have hk' : k = m + 1 := by omega
      subst hk'
      have hall : (List.range m).map (fun (i : ℕ) => if i < m + 1 then a else b)
          = (List.range m).map (fun _ => a) :=
        List.map_congr_left (fun i hi => by
          rw [List.mem_range] at hi
          rw [if_pos (by omega)])
      rw [hall, List.map_const']
      simp [List.replicate_succ']
    · rw [ih k hge]
      simp only [List.map_cons, List.map_nil]
      rw [if_neg (show ¬ m < k by omega), List.append_assoc]
      congr 1
      rw [show m + 1 - k = (m - k) + 1 by omega, List.replicate_succ']

/-! ## Theorems -/

/-- C1: the schedule built with `background_step = 10`,
`background_duration = 100`, `perturbation_duration = 10`, `cycle_count = 1`
is exactly the 11 background checkpoints `0, 10, ..., 100` (non-perturbation),
then the 10 consecutive perturbation years `101 .. 110`, then background
checkpoints resuming at step 10 (`120, 130, ..., 210`). -/
theorem surge_schedule_cycle_one :
    surgeScheduleTagged 100 10 1 =
      [((0 : ℤ), false), (10, false), (20, false), (30, false), (40, false),
       (50, false), (60, false), (70, false), (80, false), (90, false), (100, false),
       (101, true), (102, true), (103, true), (104, true), (105, true),
       (106, true), (107, true), (108, true), (109, true), (110, true),
       (120, false), (130, false), (140, false), (150, false), (160, false),
       (170, false), (180, false), (190, false), (200, false), (210, false)] := by
  rfl

/-- C9: over the schedule generated with `t_slow = 100`, `period_s = 10`,
`no_surges = 10`, the surge-window plot detection is index-safe (whenever the
first conjunct holds, both indices touched by the second conjunct are within
the array) and fires at exactly `no_surges = 10` loop indices — one per
perturbation window, at the first dense-sampled year `101 + 110c` of
window `c`. -/
theorem surge_detect_safe_and_windows :
    surgeDetectSafe = true ∧
    surgeDetectIndices = [11, 31, 51, 71, 91, 111, 131, 151, 171, 191] ∧
    surgeDetectIndices.length = 10 ∧
    surgeDetectIndices.map (fun i => (yrsSurge.get? i).getD 0)
      = (List.range 10).map (fun c => 100 + 1 + 100 * (c : ℤ) + 10 * c) := by
  exact ⟨rfl, rfl, rfl, rfl⟩

/-- C10: in the staged-ELA forcing loop, the recorded `ela[i]` is `2800` for
`100 ≤ yrs[i] < 500`, `3200` for `yrs[i] ≥ 500` and `3000` otherwise; and the
mass-balance model actually in effect during the advance to each checkpoint is
the one recorded at the previous checkpoint (initially 3000), so the advance
to the first checkpoint at or after each threshold (years 100 and 500) still
runs under the previous ELA. -/
theorem staged_ela_records :
    elaRecords.length = yrsEla.length ∧
    ((yrsEla.zip elaRecords).all (fun p =>
        decide (p.2.1 = if 500 ≤ p.1 then 3200
          else if 100 ≤ p.1 then 2800 else 3000)) = true) ∧
    yrsEla.get? 20 = some 100 ∧ elaRecords.get? 20 = some (2800, 3000) ∧
    yrsEla.get? 100 = some 500 ∧ elaRecords.get? 100 = some (3200, 2800) ∧
    ((List.range elaRecords.length).all (fun i =>
        decide ((elaRecords.get? i).map Prod.snd =
          if i = 0 then some 3000
          else (elaRecords.get? (i - 1)).map Prod.fst)) = true) := by
  exact ⟨rfl, rfl, rfl, rfl, rfl, rfl, rfl⟩

/-- C4 (counterexample): the claim quantifies over every `grid_count > 0`, but
at `grid_count = 1` the bed construction (`np.linspace`) returns the single
sample `[top_altitude]`, whose last element is not `bottom_altitude`. -/
theorem linear_bed_single_sample_counterexample :
    linspace 3400 1400 1 = [3400] ∧
    (linspace 3400 1400 1).getLast? ≠ some 1400 := by
  exact ⟨rfl, by decide⟩

/-- C4 (amended): for every `top_altitude > bottom_altitude` and
`grid_count ≥ 2`, the bed construction returns exactly `grid_count`
elevations, monotonically non-increasing, with first element `top_altitude`
and last element `bottom_altitude`. -/
theorem linear_bed_spec (top bottom : ℚ) (n : ℕ) (hb : bottom < top) (hn : 2 ≤ n) :
    (linspace top bottom n).length = n ∧
    List.Chain' (· ≥ ·) (linspace top bottom n) ∧
    (linspace top bottom n).head? = some top ∧
    (linspace top bottom n).getLast? = some bottom := by
  obtain ⟨m, rfl⟩ : ∃ m, n = m + 2 := ⟨n - 2, by omega⟩
  have hden0 : (0 : ℚ) < ((m + 2 : ℕ) : ℚ) - 1 := by
    have hm : (0 : ℚ) ≤ (m : ℚ) := Nat.cast_nonneg m
    push_cast
    linarith
  have hden : ((m + 2 : ℕ) : ℚ) - 1 ≠ 0 := ne_of_gt hden0
  have hl : linspace top bottom (m + 2)
      = (List.range (m + 2)).map
        (fun (i : ℕ) => top + (i : ℚ) * (bottom - top) / (((m + 2 : ℕ) : ℚ) - 1)) := by
    rw [linspace, if_neg (by omega), if_neg (by omega)]
  refine ⟨?_, ?_, ?_, ?_⟩
  · rw [hl]; simp
  · rw [hl, List.chain'_map]
    rw [show m + 2 = (m + 1).succ from rfl, List.chain'_range_succ]
    intro i _
    have hklt : (bottom - top) / (((m + 2 : ℕ) : ℚ) - 1) ≤ 0 := by
      apply div_nonpos_of_nonpos_of_nonneg
      · linarith
      · push_cast; linarith
    have hcast : ((i.succ : ℕ) : ℚ) = (i : ℚ) + 1 := by push_cast; ring
    rw [ge_iff_le, hcast, mul_div_assoc, mul_div_assoc]
    have := mul_le_mul_of_nonpos_right
      (show (i : ℚ) ≤ (i : ℚ) + 1 by linarith) hklt
    linarith
  · rw [hl, show m + 2 = (m + 1) + 1 from rfl, List.range_succ_eq_map]
    simp
  · rw [hl, List.getLast?_eq_getElem?, List.getElem?_map]
    simp only [List.length_map, List.length_range]
    rw [List.getElem?_range (show m + 2 - 1 < m + 2 by omega)]
    simp only [Option.map_some']
    have hc : ((m + 2 - 1 : ℕ) : ℚ) = ((m + 2 : ℕ) : ℚ) - 1 := by push_cast; ring
    rw [hc, mul_div_cancel_left₀ _ hden]
    congr 1
    ring

/-- C4 (witness): the amended statement at the end-to-end scenario
`build_linear_bed(3400, 1400, 200)`. -/
theorem linear_bed_spec_witness :
    (1400 : ℚ) < 3400 ∧ 2 ≤ 200 ∧
    ((linspace 3400 1400 200).length = 200 ∧
      List.Chain' (· ≥ ·) (linspace 3400 1400 200) ∧
      (linspace 3400 1400 200).head? = some 3400 ∧
      (linspace 3400 1400 200).getLast? = some 1400) :=
  ⟨by norm_num, by norm_num, linear_bed_spec 3400 1400 200 (by norm_num) (by norm_num)⟩

/-- C6: the external model's `advance_to` contract — advancing twice to the
same year yields the identical state (hence identical year, length and volume
diagnostics), and a request for a year not later than the current one is a
no-op leaving the state unchanged. -/
theorem advance_to_idempotent_noop (evolve : GlacierModel → GlacierModel)
    (m : GlacierModel) (y y2 : ℤ) (h : y2 ≤ m.yr) :
    run_until evolve (run_until evolve m y) y = run_until evolve m y ∧
    run_until evolve m y2 = m := by
  constructor
  · by_cases hy : y ≤ m.yr
    · have h1 : run_until evolve m y = m := by rw [run_until, if_pos hy]
      rw [h1, run_until, if_pos hy]
    · have h1 : (run_until evolve m y).yr = y := by rw [run_until, if_neg hy]
      conv_lhs => rw [run_until]
      rw [h1, if_pos (le_refl y)]
  · rw [run_until, if_pos h]

/-- C6 (witness): a model already advanced to year 500; advancing to 500
again returns the same diagnostics, and requesting year 450 leaves it at
year 500. -/
theorem advance_to_idempotent_noop_witness :
    (450 : ℤ) ≤ (⟨500, 1213, 2⟩ : GlacierModel).yr ∧
    (run_until (fun s => s) (run_until (fun s => s) ⟨500, 1213, 2⟩ 500) 500
        = run_until (fun s => s) ⟨500, 1213, 2⟩ 500 ∧
      run_until (fun s => s) (⟨500, 1213, 2⟩ : GlacierModel) 450 = ⟨500, 1213, 2⟩) :=
  ⟨by decide, advance_to_idempotent_noop (fun s => s) ⟨500, 1213, 2⟩ 500 450 (by decide)⟩

/-- C7: the reconstructed equilibrium profile is element-wise clipped to the
bedrock — at every grid index the profile is at least the bedrock elevation,
so the implied ice thickness is never negative. -/
theorem reconstruct_clips_to_bedrock (s b : List ℚ) (ela g : ℚ) (i : ℕ)
    (hi : i < (reconstruct s b ela g).length) (hb : i < b.length) :
    b.get ⟨i, hb⟩ ≤ (reconstruct s b ela g).get ⟨i, hi⟩ := by
  simp only [reconstruct] at hi ⊢
  rw [List.get_zipWith]
  exact le_max_right _ _

/-- C7 (witness): the clipping theorem at a concrete profile (the candidate
at index 0, `1000 + (1/250) * (1000 - 2500) = 994`, falls below the bedrock
`1500` and is clipped up to it). -/
theorem reconstruct_clips_to_bedrock_witness :
    (0 < (reconstruct [1000] [1500] 2500 (1 / 250)).length) ∧
    (0 < ([(1500 : ℚ)]).length) ∧
    ([(1500 : ℚ)].get ⟨0, by decide⟩
      ≤ (reconstruct [1000] [1500] 2500 (1 / 250)).get ⟨0, by decide⟩) :=
  ⟨by decide, by decide,
    reconstruct_clips_to_bedrock [1000] [1500] 2500 (1 / 250) 0 (by decide) (by decide)⟩

/-- C8 (counterexample): no eager validation exists in the source.  The bed
construction at `grid_count = 0` returns an empty array rather than failing,
it returns an (increasing) array when `top_altitude < bottom_altitude`, and
the schedule construction at `cycle_count = -1` returns the background run
rather than failing. -/
theorem no_eager_validation_counterexample :
    np_linspace 3400 1400 0 = some [] ∧
    (np_linspace 1400 3400 200).isSome = true ∧
    surgeYearsZ 100 10 (-1) = [0, 10, 20, 30, 40, 50, 60, 70, 80, 90, 100] := by
  exact ⟨rfl, rfl, rfl⟩

/-- C8 (amended): the constructions return eagerly without validation: the
bed construction fails only for a negative sample count (numpy rejects those),
succeeding for `grid_count = 0` and for inverted altitudes alike, and the
schedule construction never fails — a non-positive `cycle_count` merely
yields the background run alone. -/
theorem no_eager_validation (t b : ℚ) (n : ℤ) (c : ℤ) (hc : c ≤ 0) :
    (np_linspace t b n = none ↔ n < 0) ∧
    surgeYearsZ 100 10 c = surgeYears 100 10 0 := by
  constructor
  · rw [np_linspace]
    by_cases h : n < 0
    · simp [h]
    · simp [h]
  · rw [surgeYearsZ, Int.toNat_of_nonpos hc]

/-- C8 (witness): the amended statement at `grid_count = 0` and
`cycle_count = -1`. -/
theorem no_eager_validation_witness :
    (-1 : ℤ) ≤ 0 ∧
    ((np_linspace 3400 1400 0 = none ↔ (0 : ℤ) < 0) ∧
      surgeYearsZ 100 10 (-1) = surgeYears 100 10 0) :=
  ⟨by decide, no_eager_validation 3400 1400 0 (-1) (by decide)⟩

/-- C2: for every `cycle_count = N` (with the source's `t_slow = 100` and
`period_s = 10`), the generated schedule contains exactly `N` maximal
contiguous perturbation-tagged runs, each of length exactly
`perturbation_duration = 10` — the run-length decomposition of the tag
sequence is `N` copies of `10`. -/
theorem surge_schedule_true_runs (N : ℕ) :
    trueRuns ((surgeScheduleTagged 100 10 N).map Prod.snd) = List.replicate N 10 := by
  induction N with
  | zero => decide
  | succ n ih =>
    rw [scheduleTags_succ,
      trueRuns_append _ _ (by rw [scheduleTags_getLast]; simp), ih,
      show trueRuns (List.replicate 10 true ++ List.replicate 10 false) = [10]
        from by decide,
      List.replicate_succ']

/-- C3: with the source parameters (`background_step = 10`,
`background_duration = 100`, `perturbation_duration = 10`) and any
`cycle_count = N`, the checkpoint sequence is strictly increasing (hence has
no duplicate years), and the driver loop — started from a model at year 0 —
records one diagnostics entry per checkpoint whose year sequence matches the
schedule's checkpoints exactly. -/
theorem surge_schedule_driver (N : ℕ) (evolve : GlacierModel → GlacierModel)
    (L V : ℚ) :
    (surgeYears 100 10 N).Pairwise (· < ·) ∧
    (driverRun evolve ⟨0, L, V⟩ (surgeYears 100 10 N)).2.map (fun r => r.1)
      = surgeYears 100 10 N ∧
    (driverRun evolve ⟨0, L, V⟩ (surgeYears 100 10 N)).2.length
      = (surgeYears 100 10 N).length := by
  have hp := surgeYears_pairwise N
  have hd : (driverRun evolve ⟨0, L, V⟩ (surgeYears 100 10 N)).2.map (fun r => r.1)
      = surgeYears 100 10 N := by
    apply driverRun_years _ _ _ hp.chain'
    intro h hh
    rw [surgeYears_head N] at hh
    simp only [Option.mem_def, Option.some_inj] at hh
    subst hh
    exact le_refl 0
  refine ⟨hp, hd, ?_⟩
  have hlen := congrArg List.length hd
  simpa using hlen

/-- C5: for every width configuration with `accumulation_fraction ∈ [0, 1]`,
the trapezoidal width profile is a step function: the leading
`floor(accumulation_fraction * grid_count)` entries equal `top_width` and all
remaining entries equal `ela_width`, with no interpolation in between. -/
theorem trapezoidal_width_step (topw elaw : ℚ) (nx : ℕ) (frac : ℚ)
    (h0 : 0 ≤ frac) (h1 : frac ≤ 1) :
    build_trapezoidal_width topw elaw nx frac
      = List.replicate (⌊frac * (nx : ℚ)⌋.toNat) topw
        ++ List.replicate (nx - ⌊frac * (nx : ℚ)⌋.toNat) elaw := by
  have hkn : ⌊frac * (nx : ℚ)⌋.toNat ≤ nx := by
    rw [Int.toNat_le]
    calc ⌊frac * (nx : ℚ)⌋ ≤ ⌊((nx : ℕ) : ℚ)⌋ :=
          Int.floor_le_floor (mul_le_of_le_one_left (Nat.cast_nonneg nx) h1)
    _ = (nx : ℤ) := Int.floor_natCast nx
  rw [build_trapezoidal_width]
  have hcond : ∀ i ∈ List.range nx,
      (if (i : ℤ) < ⌊frac * (nx : ℚ)⌋ then topw else elaw)
        = (if i < ⌊frac * (nx : ℚ)⌋.toNat then topw else elaw) := by
    intro i _
    by_cases hi : i < ⌊frac * (nx : ℚ)⌋.toNat
    · rw [if_pos hi, if_pos (Int.lt_toNat.mp hi)]
    · rw [if_neg hi, if_neg (fun hc => hi (Int.lt_toNat.mpr hc))]
  rw [List.map_congr_left hcond, range_map_ite _ _ nx _ hkn]

/-- C5 (witness): the step-function theorem at the advance-and-retreat
notebook's configuration `ACCW = 1000`, `ELAW = 500`, `nx = 200`,
`NZ = 1/3` (66 leading wide entries, 134 narrow ones). -/
theorem trapezoidal_width_step_witness :
    (0 : ℚ) ≤ 1 / 3 ∧ (1 / 3 : ℚ) ≤ 1 ∧
    build_trapezoidal_width 1000 500 200 (1 / 3)
      = List.replicate (⌊(1 / 3 : ℚ) * ((200 : ℕ) : ℚ)⌋.toNat) 1000
        ++ List.replicate (200 - ⌊(1 / 3 : ℚ) * ((200 : ℕ) : ℚ)⌋.toNat) 500 :=
  ⟨by norm_num, by norm_num,
    trapezoidal_width_step 1000 500 200 (1 / 3) (by norm_num) (by norm_num)⟩

end OggmEdu
